import Mathlib

/-!
Shallow embedding of the TrialGuard admission-control engine (src/app.py).

Modelling conventions:
* Python floats are modelled as rationals (ℚ); every quantity involved is
  produced by field arithmetic on inputs, and the claims under study are
  about the algebraic formulas, not about floating-point rounding.
* Wall-clock reads (`time.time()`) are made explicit: every operation that
  calls `time.time()` in the source takes a `now : ℚ` argument.
* The two `random.uniform` draws in `process_event` are made explicit: the
  caller passes the drawn values `rand_cost`, `rand_value`.
* Python dicts keyed by strings become total functions `String → Option _`
  (for `collections.defaultdict(list)`, `String → List _` with default
  `[]`, which is observationally the defaultdict behaviour).
* The f-string reason messages of `_make_decision` are embedded as an
  inductive `Reason` carrying the interpolated data; the 2-decimal string
  rendering is presentation only.
* The `KeyError` raised by `self.tenants[tenant_id]` on an unknown tenant
  is the `UnknownTenant` error of the spec; `process_event` returns
  `Except EngineError Decision` together with the engine state as it is
  left when the exception propagates (Python exceptions do not roll back
  the mutations already performed on `st.session_state`).
-/

/-- Decision constants `DECISION_ALLOW` / `DECISION_THROTTLE` /
`DECISION_BLOCK` / `DECISION_FLAG_SALES` of src/app.py. -/
inductive Decision where
  | allow
  | throttle
  | block
  | flagSales
deriving DecidableEq

/-- The reason strings produced by `TrialGuardEngine._make_decision`,
with the interpolated values carried as data instead of 2-decimal text. -/
inductive Reason where
  | criticalAbuseScore (score : ℚ)
  | negativeRoi (score : ℚ)
  | highVolumeHighValue
  | abuseThresholdExceeded
  | resourceOverloaded (resource : String)
  | highRoiUser
  | normalBehavior
deriving DecidableEq

/-- The `TrialUser` class of src/app.py: per-user accumulating state.
`events` entries are (timestamp, event type, resource id). -/
structure TrialUser where
  tenant_id : String
  user_id : String
  user_type : String
  created_at : ℚ
  events : List (ℚ × String × Option String)
  api_count : ℕ
  feature_sequence : List String
  last_active : ℚ
  session_durations : List ℚ
  estimated_cost : ℚ
  feature_value : ℚ
  abuse_score : ℚ
  roi_score : ℚ
  current_decision : Decision
  reasons : List Reason
deriving DecidableEq

/-- `TrialUser.__init__(tenant_id, user_id, user_type)` evaluated when the
clock reads `now` (both `time.time()` calls in `__init__` are the same
instant for our purposes: they set `created_at` and `last_active`). -/
def TrialUser.init (tenant_id user_id user_type : String) (now : ℚ) : TrialUser where
  tenant_id := tenant_id
  user_id := user_id
  user_type := user_type
  created_at := now
  events := []
  api_count := 0
  feature_sequence := []
  last_active := now
  session_durations := []
  estimated_cost := 0
  feature_value := 0
  abuse_score := 0
  roi_score := 0
  current_decision := Decision.allow
  reasons := []

/-- `TrialUser.add_event(event_type, resource_id, cost, value)` at clock
reading `now`.  `feature_sequence.pop(0)` is `List.tail`; the in-place
`session_durations[-1] += time_since_last` is rebuilt as
`dropLast ++ [getLast! + gap]`. -/
def TrialUser.add_event (u : TrialUser) (event_type : String)
    (resource_id : Option String) (cost value now : ℚ) : TrialUser :=
  let events := u.events ++ [(now, event_type, resource_id)]
  let api_count := u.api_count + 1
  let fs0 := u.feature_sequence ++ [event_type]
  let feature_sequence := if 10 < fs0.length then fs0.tail else fs0
  let time_since_last := now - u.last_active
  let session_durations :=
    if 300 < time_since_last then u.session_durations ++ [0]
    else if u.session_durations ≠ [] then
      u.session_durations.dropLast ++ [u.session_durations.getLast! + time_since_last]
    else u.session_durations
  { u with
    events := events
    api_count := api_count
    feature_sequence := feature_sequence
    last_active := now
    session_durations := session_durations
    estimated_cost := u.estimated_cost + cost
    feature_value := u.feature_value + value }

/-- The `TenantConfig` class of src/app.py with its constructor defaults. -/
structure TenantConfig where
  name : String
  max_api_rate : ℚ := 50
  max_cost_per_session : ℚ := 10
  abuse_threshold : ℚ := 7/10
  roi_min_threshold : ℚ := 0
  weight_abuse : ℚ := 1/2
  weight_cost : ℚ := 3/10
  weight_value : ℚ := 1/5
deriving DecidableEq

/-- The `ResourceMonitor` class: `usage_log` is the
`collections.defaultdict(list)` mapping resource id to timestamps
(default `[]` plays the role of the defaultdict's auto-inserted empty
list; inserting it on read is observationally invisible). -/
structure ResourceMonitor where
  usage_log : String → List ℚ

def ResourceMonitor.init : ResourceMonitor := ⟨fun _ => []⟩

/-- `ResourceMonitor.log_usage(resource_id)` at clock reading `now`:
append `now`, then keep only entries with `now - t < 60`. -/
def ResourceMonitor.log_usage (m : ResourceMonitor) (resource_id : String)
    (now : ℚ) : ResourceMonitor :=
  ⟨fun r =>
    if r = resource_id then
      ((m.usage_log resource_id) ++ [now]).filter (fun t => now - t < 60)
    else m.usage_log r⟩

/-- `ResourceMonitor.get_load(resource_id)`: the length of the retained
timestamp list.  It performs no pruning and cannot fail. -/
def ResourceMonitor.get_load (m : ResourceMonitor) (resource_id : String) : ℕ :=
  (m.usage_log resource_id).length

/-- Python's builtin `max` on two floats. -/
def pymax (a b : ℚ) : ℚ := if a ≤ b then b else a

/-- Python's builtin `min` on two floats. -/
def pymin (a b : ℚ) : ℚ := if a ≤ b then a else b

/-- `l.drop (l.length - 5)` is Python's `l[-5:]` for lists of length ≥ 5. -/
def last5 (l : List String) : List String := l.drop (l.length - 5)

/-- `len(set(l)) == 1` for a nonempty list: every element equals the head. -/
def allSame (l : List String) : Bool := l.all (fun x => x == l.head!)

/-- `TrialGuardEngine._calculate_scores(user, tenant)` at clock reading
`now`; writes only `abuse_score` and `roi_score`. -/
def calculate_scores (u : TrialUser) (t : TenantConfig) (now : ℚ) : TrialUser :=
  let duration_mins : ℚ := pymax ((now - u.created_at) / 60) (1/10)
  let api_rate : ℚ := (u.api_count : ℚ) / duration_mins
  let r1 : ℚ := if t.max_api_rate < api_rate then 4/10 else 0
  let r2 : ℚ :=
    if 5 ≤ u.feature_sequence.length ∧ allSame (last5 u.feature_sequence) = true
    then 3/10 else 0
  let r3 : ℚ := if t.max_cost_per_session < u.estimated_cost then 4/10 else 0
  let raw_abuse_score : ℚ := r1 + r2 + r3
  let abuse := pymin raw_abuse_score 1
  let net_value := u.feature_value - u.estimated_cost
  let risk_factor := 1 - abuse
  { u with abuse_score := abuse, roi_score := net_value * risk_factor }

/-- Rules 3 and 4 of `_make_decision` (sales opportunity, then default). -/
def sales_or_allow (u : TrialUser) : Decision × List Reason :=
  if 10 < u.roi_score ∧ u.abuse_score < 2/10 then
    (Decision.flagSales, [Reason.highRoiUser])
  else (Decision.allow, [Reason.normalBehavior])

/-- `TrialGuardEngine._make_decision(user, tenant)`: the strict rule
chain.  Python's `if last_resource:` truthiness excludes both `None` and
the empty string. -/
def make_decision (u : TrialUser) (t : TenantConfig) (m : ResourceMonitor) :
    Decision × List Reason :=
  if t.abuse_threshold ≤ u.abuse_score then
    if u.roi_score < -5 then
      (Decision.block, [Reason.criticalAbuseScore u.abuse_score, Reason.negativeRoi u.roi_score])
    else if 5 < u.roi_score then
      (Decision.throttle, [Reason.highVolumeHighValue])
    else
      (Decision.block, [Reason.abuseThresholdExceeded])
  else
    match u.events.getLast? with
    | some (_, _, some lr) =>
      if lr ≠ "" ∧ 100 < m.get_load lr then
        (Decision.throttle, [Reason.resourceOverloaded lr])
      else sales_or_allow u
    | _ => sales_or_allow u

/-- The `st.session_state.stats` record. -/
structure Stats where
  total_events : ℕ
  blocked_events : ℕ
  revenue_saved : ℚ
  cost_saved : ℚ
deriving DecidableEq

/-- The engine-owned `st.session_state` registries. -/
structure EngineState where
  users : String → Option TrialUser
  tenants : String → Option TenantConfig
  resource_monitor : ResourceMonitor
  stats : Stats

/-- `UnknownTenant` of the spec: the `KeyError` from
`self.tenants[tenant_id]`. -/
inductive EngineError where
  | unknownTenant
deriving DecidableEq

/-- `TrialGuardEngine.process_event(tenant_id, user_id, event_type,
resource_id, user_type_simulation)` at clock reading `now`, with the two
potential `random.uniform` draws passed as `rand_cost ∈ [0.1, 0.5]` and
`rand_value ∈ [0.5, 2.0]`.  The user get-or-create happens before the
tenant lookup, exactly as in the source; on an unknown tenant the
returned state retains that already-performed mutation. -/
def process_event (s : EngineState) (tenant_id user_id event_type : String)
    (resource_id : Option String) (user_type_simulation : String)
    (now rand_cost rand_value : ℚ) :
    Except EngineError Decision × EngineState :=
  let user :=
    match s.users user_id with
    | some u => u
    | none => TrialUser.init tenant_id user_id user_type_simulation now
  let users1 : String → Option TrialUser :=
    fun k => if k = user_id then some user else s.users k
  match s.tenants tenant_id with
  | none => (Except.error EngineError.unknownTenant, { s with users := users1 })
  | some tenant =>
    let cost : ℚ := if event_type = "API_CALL" then rand_cost else 1/20
    let value : ℚ := if event_type = "CHECKOUT_ATTEMPT" then rand_value else 1/10
    let step :=
      match resource_id with
      | some r =>
        if r ≠ "" then
          let rm := s.resource_monitor.log_usage r now
          (rm, if 50 < rm.get_load r then cost * 2 else cost)
        else (s.resource_monitor, cost)
      | none => (s.resource_monitor, cost)
    let rm := step.1
    let cost := step.2
    let user1 := user.add_event event_type resource_id cost value now
    let user2 := calculate_scores user1 tenant now
    let dr := make_decision user2 tenant rm
    let user3 := { user2 with current_decision := dr.1, reasons := dr.2 }
    let users2 : String → Option TrialUser :=
      fun k => if k = user_id then some user3 else s.users k
    let stats1 := { s.stats with total_events := s.stats.total_events + 1 }
    let stats2 :=
      if dr.1 = Decision.block then
        { stats1 with
          blocked_events := stats1.blocked_events + 1
          cost_saved := stats1.cost_saved + cost }
      else if dr.1 = Decision.flagSales then
        { stats1 with revenue_saved := stats1.revenue_saved + value * (1/10) }
      else stats1
    (Except.ok dr.1,
      { users := users2, tenants := s.tenants, resource_monitor := rm, stats := stats2 })

/-!
### Definitional equations for the embedded operations
-/

theorem add_event_feature_sequence (u : TrialUser) (e : String) (r : Option String)
    (c v n : ℚ) :
    (u.add_event e r c v n).feature_sequence =
      if 10 < (u.feature_sequence ++ [e]).length then (u.feature_sequence ++ [e]).tail
      else u.feature_sequence ++ [e] := rfl

theorem add_event_session_durations_eq (u : TrialUser) (e : String) (r : Option String)
    (c v n : ℚ) :
    (u.add_event e r c v n).session_durations =
      if 300 < n - u.last_active then u.session_durations ++ [0]
      else if u.session_durations ≠ [] then
        u.session_durations.dropLast ++ [u.session_durations.getLast! + (n - u.last_active)]
      else u.session_durations := rfl

theorem add_event_abuse_score (u : TrialUser) (e : String) (r : Option String) (c v n : ℚ) :
    (u.add_event e r c v n).abuse_score = u.abuse_score := rfl

theorem add_event_last_active (u : TrialUser) (e : String) (r : Option String) (c v n : ℚ) :
    (u.add_event e r c v n).last_active = n := rfl

theorem abuse_score_eq (u : TrialUser) (t : TenantConfig) (now : ℚ) :
    (calculate_scores u t now).abuse_score =
      pymin ((if t.max_api_rate < (u.api_count : ℚ) / pymax ((now - u.created_at) / 60) (1/10) then 4/10 else 0)
        + (if 5 ≤ u.feature_sequence.length ∧ allSame (last5 u.feature_sequence) = true then 3/10 else 0)
        + (if t.max_cost_per_session < u.estimated_cost then 4/10 else 0)) 1 := rfl

theorem roi_score_eq (u : TrialUser) (t : TenantConfig) (now : ℚ) :
    (calculate_scores u t now).roi_score =
      (u.feature_value - u.estimated_cost) * (1 - (calculate_scores u t now).abuse_score) := rfl

theorem pymin_eq_min (a b : ℚ) : pymin a b = min a b := by
  simp [pymin, min_def]

theorem pymax_eq_max (a b : ℚ) : pymax a b = max a b := by
  simp [pymax, max_def]

/-!
### Concrete fixtures used by counterexamples and witnesses
-/

/-- A tenant with the constructor defaults of `TenantConfig`
(`max_api_rate = 50`, `max_cost_per_session = 10`, `abuse_threshold = 0.7`). -/
def demoTenant : TenantConfig := { name := "Tenant_A" }

/-- A concrete user profile: created at time 0, six events recorded
(alternating types, so the repetition signal is off), no cost and no
value accumulated. -/
def demoUser : TrialUser where
  tenant_id := "Tenant_A"
  user_id := "u1"
  user_type := "NORMAL"
  created_at := 0
  events := []
  api_count := 6
  feature_sequence := ["A", "B", "A", "B", "A", "B"]
  last_active := 6
  session_durations := []
  estimated_cost := 0
  feature_value := 0
  abuse_score := 0
  roi_score := 0
  current_decision := Decision.allow
  reasons := []

/-- The zeroed `st.session_state.stats` record of engine start. -/
def demoStats : Stats where
  total_events := 0
  blocked_events := 0
  revenue_saved := 0
  cost_saved := 0

/-- A freshly initialised engine: no users, one registered tenant
`Tenant_A`, empty resource monitor, zeroed stats. -/
def demoState : EngineState where
  users := fun _ => none
  tenants := fun k => if k = "Tenant_A" then some demoTenant else none
  resource_monitor := ResourceMonitor.init
  stats := demoStats

/-!
### C3: idempotence of score calculation
-/

/-- Claim C3 counterexample: `_calculate_scores` is not a pure function of
the UserProfile and TenantPolicy alone — it reads the wall clock for the
api-rate signal.  For a user created at time 0 with 6 events, a
calculation at t = 7.19 s yields abuse score 0.4 (rate 360/7.19 > 50)
while an immediately following calculation at t = 7.21 s yields 0
(rate 360/7.21 < 50), so two successive `calculate` calls with no
intervening `addEvent` return different scores. -/
theorem calculateScores_clock_sensitive :
    (calculate_scores demoUser demoTenant (719/100)).abuse_score = 2/5 ∧
    (calculate_scores (calculate_scores demoUser demoTenant (719/100)) demoTenant (721/100)).abuse_score = 0 ∧
    (2/5 : ℚ) ≠ 0 := by
  refine ⟨?_, ?_, by norm_num⟩ <;>
    norm_num +decide [calculate_scores, pymax, pymin, allSame, last5, demoUser, demoTenant]

/-- Claim C3 (amended): abuseScore and roiScore are pure functions of the
UserProfile, the TenantPolicy and the current clock reading; calling
`calculate` twice at the same clock reading without an intervening
`addEvent` yields exactly the same abuseScore and roiScore both times. -/
theorem calculateScores_idempotent_fixed_clock (u : TrialUser) (t : TenantConfig) (now : ℚ) :
    (calculate_scores (calculate_scores u t now) t now).abuse_score
        = (calculate_scores u t now).abuse_score ∧
    (calculate_scores (calculate_scores u t now) t now).roi_score
        = (calculate_scores u t now).roi_score :=
  ⟨rfl, rfl⟩

/-!
### C4: the exact scoring formula
-/

theorem allSame_cons_iff (a : String) (as : List String) :
    allSame (a :: as) = true ↔ ∀ x ∈ a :: as, ∀ y ∈ a :: as, x = y := by
  simp only [allSame, List.all_eq_true, List.head!, beq_iff_eq]
  constructor
  · intro h x hx y hy
    rw [h x hx, h y hy]
  · intro h x hx
    exact h x hx a (List.mem_cons_self a as)

theorem repetition_cond_iff (l : List String) :
    (5 ≤ l.length ∧ allSame (last5 l) = true) ↔
      (5 ≤ l.length ∧ ∀ x ∈ last5 l, ∀ y ∈ last5 l, x = y) := by
  constructor
  · rintro ⟨h5, hs⟩
    refine ⟨h5, ?_⟩
    cases hl : last5 l with
    | nil =>
      have : (last5 l).length = 5 := by
        simp only [last5, List.length_drop]; omega
      rw [hl] at this
      simp at this
    | cons a as =>
      rw [hl] at hs
      intro x hx y hy
      exact (allSame_cons_iff a as).mp hs x (hl ▸ hx) y (hl ▸ hy)
  · rintro ⟨h5, hs⟩
    refine ⟨h5, ?_⟩
    cases hl : last5 l with
    | nil => simp [allSame]
    | cons a as =>
      exact (allSame_cons_iff a as).mpr (fun x hx y hy => hs x (hl ▸ hx) y (hl ▸ hy))

/-- Claim C4: for every UserProfile and TenantPolicy, `calculate` sets
`abuseScore = min(s, 1)` where `s` sums 0.4 for the api-rate signal
(`apiEventCount / max(minutes since createdAt, 0.1) > maxApiRatePerMinute`),
0.3 for the repetition signal (sequence length ≥ 5 and the last 5 entries
all identical), and 0.4 for the cost signal
(`estimatedCost > maxCostPerSession`); and sets
`roiScore = (featureValue - estimatedCost) * (1 - abuseScore)` with no
floor or ceiling applied. -/
theorem calculateScores_formula (u : TrialUser) (t : TenantConfig) (now : ℚ) :
    (calculate_scores u t now).abuse_score =
      min ((if (u.api_count : ℚ) / max ((now - u.created_at) / 60) (1/10) > t.max_api_rate then 4/10 else 0)
        + (if 5 ≤ u.feature_sequence.length ∧ ∀ x ∈ last5 u.feature_sequence, ∀ y ∈ last5 u.feature_sequence, x = y then 3/10 else 0)
        + (if u.estimated_cost > t.max_cost_per_session then 4/10 else 0)) 1
    ∧ (calculate_scores u t now).roi_score =
      (u.feature_value - u.estimated_cost) * (1 - (calculate_scores u t now).abuse_score) := by
  constructor
  · rw [abuse_score_eq, pymin_eq_min, pymax_eq_max]
    simp only [gt_iff_lt, repetition_cond_iff]
  · exact roi_score_eq u t now

/-!
### C5: the abuse-score invariant
-/

/-- One call on a user profile: either `TrialUser.add_event` or
`TrialGuardEngine._calculate_scores` (against some tenant, at some clock
reading). -/
inductive UserOp where
  | addEvent (event_type : String) (resource_id : Option String) (cost value now : ℚ)
  | calculate (t : TenantConfig) (now : ℚ)

def applyUserOp (u : TrialUser) : UserOp → TrialUser
  | UserOp.addEvent e r c v n => u.add_event e r c v n
  | UserOp.calculate t n => calculate_scores u t n

def applyUserOps (u : TrialUser) (ops : List UserOp) : TrialUser :=
  ops.foldl applyUserOp u

theorem pymin_one_bounds (a : ℚ) (h : 0 ≤ a) : 0 ≤ pymin a 1 ∧ pymin a 1 ≤ 1 := by
  unfold pymin
  split_ifs with h1
  · exact ⟨h, h1⟩
  · exact ⟨by norm_num, le_refl 1⟩

theorem calculate_abuse_bounds (u : TrialUser) (t : TenantConfig) (now : ℚ) :
    0 ≤ (calculate_scores u t now).abuse_score ∧ (calculate_scores u t now).abuse_score ≤ 1 := by
  rw [abuse_score_eq]
  exact pymin_one_bounds _ (by split_ifs <;> norm_num)

/-- Claim C5: for every user and after every sequence of `addEvent` and
`calculate` calls, `0 ≤ abuseScore ≤ 1` holds on the UserProfile. -/
theorem abuseScore_invariant_bounds (tenant_id user_id user_type : String) (t0 : ℚ)
    (ops : List UserOp) :
    0 ≤ (applyUserOps (TrialUser.init tenant_id user_id user_type t0) ops).abuse_score ∧
    (applyUserOps (TrialUser.init tenant_id user_id user_type t0) ops).abuse_score ≤ 1 := by
  have key : ∀ (ops : List UserOp) (u : TrialUser),
      0 ≤ u.abuse_score → u.abuse_score ≤ 1 →
      0 ≤ (applyUserOps u ops).abuse_score ∧ (applyUserOps u ops).abuse_score ≤ 1 := by
    intro ops
    induction ops with
    | nil => intro u h0 h1; exact ⟨h0, h1⟩
    | cons op rest ih =>
      intro u h0 h1
      cases op with
      | addEvent e r c v n => exact ih (u.add_event e r c v n) h0 h1
      | calculate t n =>
        exact ih (calculate_scores u t n)
          (calculate_abuse_bounds u t n).1 (calculate_abuse_bounds u t n).2
  exact key ops (TrialUser.init tenant_id user_id user_type t0) (le_refl 0)
    (by norm_num [TrialUser.init])

/-!
### C6: the feature sequence is a bounded FIFO
-/

/-- The argument tuple of one `process_event`-driven `add_event` call. -/
structure EventArgs where
  event_type : String
  resource_id : Option String
  cost : ℚ
  value : ℚ
  now : ℚ

def applyEvents (u : TrialUser) (es : List EventArgs) : TrialUser :=
  es.foldl (fun v e => v.add_event e.event_type e.resource_id e.cost e.value e.now) u

/-- The most recent at-most-`n` entries of `l`, in order. -/
def lastN (n : ℕ) (l : List String) : List String := l.drop (l.length - n)

theorem lastN_length_le (n : ℕ) (l : List String) : (lastN n l).length ≤ n := by
  simp only [lastN, List.length_drop]
  omega

theorem seq_step_lastN (l : List String) (e : String) :
    (if 10 < (lastN 10 l ++ [e]).length then (lastN 10 l ++ [e]).tail
     else lastN 10 l ++ [e]) = lastN 10 (l ++ [e]) := by
  unfold lastN
  rcases le_or_lt l.length 9 with h | h
  · rw [Nat.sub_eq_zero_of_le (by omega), List.drop_zero]
    rw [if_neg (by simp only [List.length_append, List.length_cons, List.length_nil]; omega)]
    rw [Nat.sub_eq_zero_of_le (by simp only [List.length_append, List.length_cons, List.length_nil]; omega),
      List.drop_zero]
  · have hlen : (l.drop (l.length - 10)).length = 10 := by
      rw [List.length_drop]; omega
    rw [if_pos (by simp only [List.length_append, hlen, List.length_cons, List.length_nil]; omega)]
    rw [← List.drop_one, List.drop_append_of_le_length (by omega), List.drop_drop,
      List.drop_append_of_le_length (by simp only [List.length_append, List.length_cons, List.length_nil]; omega)]
    have harith : l.length - 10 + 1 = (l ++ [e]).length - 10 := by
      simp only [List.length_append, List.length_cons, List.length_nil]; omega
    rw [harith]

/-- Claim C6: for every user and every sequence of `addEvent` calls,
`recentEventTypeSequence` never exceeds length 10, and it is always
exactly the event types of the most recent at-most-10 events in arrival
order (the oldest entry is evicted first when an append would exceed 10
entries). -/
theorem featureSequence_fifo_bounded (tenant_id user_id user_type : String) (t0 : ℚ)
    (es : List EventArgs) :
    (applyEvents (TrialUser.init tenant_id user_id user_type t0) es).feature_sequence
      = lastN 10 (es.map EventArgs.event_type) ∧
    (applyEvents (TrialUser.init tenant_id user_id user_type t0) es).feature_sequence.length ≤ 10 := by
  have key : ∀ (es : List EventArgs) (u : TrialUser) (l : List String),
      u.feature_sequence = lastN 10 l →
      (applyEvents u es).feature_sequence = lastN 10 (l ++ es.map EventArgs.event_type) := by
    intro es
    induction es with
    | nil => intro u l h; simpa using h
    | cons e rest ih =>
      intro u l h
      have hstep : (u.add_event e.event_type e.resource_id e.cost e.value e.now).feature_sequence
          = lastN 10 (l ++ [e.event_type]) := by
        rw [add_event_feature_sequence, h]
        exact seq_step_lastN l e.event_type
      have htail := ih (u.add_event e.event_type e.resource_id e.cost e.value e.now)
        (l ++ [e.event_type]) hstep
      simpa [applyEvents, List.append_assoc] using htail
  have h1 := key es (TrialUser.init tenant_id user_id user_type t0) [] rfl
  have h2 : (applyEvents (TrialUser.init tenant_id user_id user_type t0) es).feature_sequence
      = lastN 10 (es.map EventArgs.event_type) := by simpa using h1
  refine ⟨h2, ?_⟩
  rw [h2]
  exact lastN_length_le 10 (es.map EventArgs.event_type)

/-!
### C7: the decision rules are a strict priority chain
-/

/-- Claim C7: whenever `abuseScore >= tenant.abuseThreshold`,
`_make_decision` returns the abuse-gate outcome (BLOCK with the critical
abuse and negative ROI reasons if `roiScore < -5`, THROTTLE with the
high-volume-high-value reason if `roiScore > 5`, otherwise BLOCK with the
abuse-threshold-exceeded reason), no later rule is evaluated, and in
particular the result is never FLAG_SALES even when the
sales-opportunity condition also holds. -/
theorem makeDecision_priority_chain (u : TrialUser) (t : TenantConfig) (m : ResourceMonitor)
    (h : t.abuse_threshold ≤ u.abuse_score) :
    make_decision u t m =
      (if u.roi_score < -5 then
        (Decision.block, [Reason.criticalAbuseScore u.abuse_score, Reason.negativeRoi u.roi_score])
      else if 5 < u.roi_score then (Decision.throttle, [Reason.highVolumeHighValue])
      else (Decision.block, [Reason.abuseThresholdExceeded])) ∧
    (make_decision u t m).1 ≠ Decision.flagSales := by
  unfold make_decision
  rw [if_pos h]
  refine ⟨rfl, ?_⟩
  split_ifs <;> simp

/-- A user whose abuse score 0.8 meets the default abuse threshold 0.7
and whose ROI score 12 also meets the sales-opportunity ROI bar. -/
def hotUser : TrialUser := { demoUser with abuse_score := 8/10, roi_score := 12 }

/-- Witness for `makeDecision_priority_chain` at a concrete input: the
hypothesis holds (0.7 ≤ 0.8) and the conclusion follows; in particular
the decision is THROTTLE (roiScore = 12 > 5), not FLAG_SALES. -/
theorem makeDecision_priority_chain_witness :
    demoTenant.abuse_threshold ≤ hotUser.abuse_score ∧
    (make_decision hotUser demoTenant ResourceMonitor.init =
      (if hotUser.roi_score < -5 then
        (Decision.block, [Reason.criticalAbuseScore hotUser.abuse_score, Reason.negativeRoi hotUser.roi_score])
      else if 5 < hotUser.roi_score then (Decision.throttle, [Reason.highVolumeHighValue])
      else (Decision.block, [Reason.abuseThresholdExceeded])) ∧
    (make_decision hotUser demoTenant ResourceMonitor.init).1 ≠ Decision.flagSales) :=
  ⟨by norm_num [hotUser, demoUser, demoTenant],
    makeDecision_priority_chain hotUser demoTenant ResourceMonitor.init
      (by norm_num [hotUser, demoUser, demoTenant])⟩

/-!
### C8: session-duration behaviour
-/

theorem getLastBang_mem : ∀ (l : List ℚ), l ≠ [] → l.getLast! ∈ l
  | a :: as, _ => by
    have h : (a :: as).getLast! = (a :: as).getLast (by simp) := rfl
    rw [h]
    exact List.getLast_mem _

theorem sessions_nonneg_aux : ∀ (es : List EventArgs) (u : TrialUser),
    (∀ d ∈ u.session_durations, 0 ≤ d) →
    List.Chain' (· ≤ ·) (u.last_active :: es.map EventArgs.now) →
    ∀ d ∈ (applyEvents u es).session_durations, 0 ≤ d := by
  intro es
  induction es with
  | nil => intro u h _; simpa [applyEvents] using h
  | cons e rest ih =>
    intro u h hc
    have hle : u.last_active ≤ e.now := (List.chain'_cons.mp hc).1
    have hrest : List.Chain' (· ≤ ·) (e.now :: rest.map EventArgs.now) :=
      (List.chain'_cons.mp hc).2
    have hstep : ∀ d ∈ (u.add_event e.event_type e.resource_id e.cost e.value e.now).session_durations,
        0 ≤ d := by
      intro d hd
      rw [add_event_session_durations_eq] at hd
      split_ifs at hd with h1 h2
      · rcases List.mem_append.mp hd with hmem | hmem
        · exact h d hmem
        · simp only [List.mem_singleton] at hmem
          simp [hmem]
      · rcases List.mem_append.mp hd with hmem | hmem
        · exact h d (List.dropLast_sublist _ |>.subset hmem)
        · simp only [List.mem_singleton] at hmem
          have hlast : 0 ≤ u.session_durations.getLast! :=
            h _ (getLastBang_mem _ h2)
          rw [hmem]
          have : (0:ℚ) ≤ e.now - u.last_active := by linarith
          linarith
      · exact h d hd
    have hchain2 : List.Chain' (· ≤ ·)
        ((u.add_event e.event_type e.resource_id e.cost e.value e.now).last_active
          :: rest.map EventArgs.now) := by
      rw [add_event_last_active]
      exact hrest
    exact ih (u.add_event e.event_type e.resource_id e.cost e.value e.now) hstep hchain2

/-- Claim C8: a brand-new user's first `addEvent` leaves
`sessionDurations` empty or equal to `[0]`; in general `addEvent`
appends a 0-valued entry exactly when the gap since `lastActiveAt`
exceeds 300 seconds, adds the gap to the last entry when one exists and
the gap is at most 300 seconds, and creates no entry when the list is
empty and the gap is at most 300 seconds; and under a monotone clock
(each event's `now` at least the previous one, starting from the
creation instant) no entry of `sessionDurations` is ever negative. -/
theorem sessionDurations_behavior (tenant_id user_id user_type event_type : String)
    (resource_id : Option String) (cost value t0 n1 : ℚ) (es : List EventArgs)
    (hchain : List.Chain' (· ≤ ·) (t0 :: es.map EventArgs.now)) :
    (((TrialUser.init tenant_id user_id user_type t0).add_event event_type resource_id cost value n1).session_durations = [] ∨
     ((TrialUser.init tenant_id user_id user_type t0).add_event event_type resource_id cost value n1).session_durations = [0]) ∧
    (∀ (u : TrialUser) (e : String) (r : Option String) (c v n : ℚ),
      (u.add_event e r c v n).session_durations =
        if 300 < n - u.last_active then u.session_durations ++ [0]
        else if u.session_durations = [] then u.session_durations
        else u.session_durations.dropLast ++ [u.session_durations.getLast! + (n - u.last_active)]) ∧
    (∀ d ∈ (applyEvents (TrialUser.init tenant_id user_id user_type t0) es).session_durations, 0 ≤ d) := by
  refine ⟨?_, ?_, ?_⟩
  · rw [add_event_session_durations_eq]
    split_ifs with h1 h2
    · right; rfl
    · exact absurd rfl h2
    · left; rfl
  · intro u e r c v n
    rw [add_event_session_durations_eq]
    rcases eq_or_ne u.session_durations [] with hsd | hsd <;>
      split_ifs <;> simp_all
  · exact sessions_nonneg_aux es (TrialUser.init tenant_id user_id user_type t0)
      (by simp [TrialUser.init]) (by simpa [TrialUser.init] using hchain)

/-- Witness for `sessionDurations_behavior` at a concrete input: a user
created at time 0 whose first event arrives at time 400 (a gap above 300
opens a 0-valued session entry), followed by events at times 100 and 500
in a second run used for the nonnegativity part; the clock chain
0 ≤ 100 ≤ 500 holds. -/
theorem sessionDurations_behavior_witness :
    List.Chain' (· ≤ ·) ((0:ℚ) :: [EventArgs.mk "LOGIN" none 0 0 100, EventArgs.mk "API_CALL" none 0 0 500].map EventArgs.now) ∧
    ((((TrialUser.init "Tenant_A" "u9" "NORMAL" 0).add_event "LOGIN" none 0 0 400).session_durations = [] ∨
      ((TrialUser.init "Tenant_A" "u9" "NORMAL" 0).add_event "LOGIN" none 0 0 400).session_durations = [0]) ∧
     (∀ (u : TrialUser) (e : String) (r : Option String) (c v n : ℚ),
       (u.add_event e r c v n).session_durations =
         if 300 < n - u.last_active then u.session_durations ++ [0]
         else if u.session_durations = [] then u.session_durations
         else u.session_durations.dropLast ++ [u.session_durations.getLast! + (n - u.last_active)]) ∧
     (∀ d ∈ (applyEvents (TrialUser.init "Tenant_A" "u9" "NORMAL" 0)
        [EventArgs.mk "LOGIN" none 0 0 100, EventArgs.mk "API_CALL" none 0 0 500]).session_durations, 0 ≤ d)) :=
  ⟨by simp [List.chain'_cons]; norm_num,
    sessionDurations_behavior "Tenant_A" "u9" "NORMAL" "LOGIN" none 0 0 0 400
      [EventArgs.mk "LOGIN" none 0 0 100, EventArgs.mk "API_CALL" none 0 0 500]
      (by simp [List.chain'_cons]; norm_num)⟩

/-!
### C9: the resource-usage window
-/

/-- Claim C9: each `logUsage(resourceId)` call appends the current
timestamp and then removes every entry older than 60 seconds relative to
that call, so immediately afterwards the retained list for that resource
contains no timestamp older than 60 seconds, and `getLoad` — which
counts the retained timestamps without pruning — counts no timestamp
older than 60 seconds relative to that most recent `logUsage` call
(the stale-entry count of the retained list is zero). -/
theorem logUsage_prune_window (m : ResourceMonitor) (r : String) (now : ℚ) :
    (∀ ts ∈ (m.log_usage r now).usage_log r, now - ts < 60) ∧
    (m.log_usage r now).get_load r = ((m.log_usage r now).usage_log r).length ∧
    (((m.log_usage r now).usage_log r).filter (fun ts => 60 ≤ now - ts)).length = 0 := by
  have hl : (m.log_usage r now).usage_log r
      = ((m.usage_log r) ++ [now]).filter (fun ts => decide (now - ts < 60)) := by
    simp [ResourceMonitor.log_usage]
  have hfresh : ∀ ts ∈ (m.log_usage r now).usage_log r, now - ts < 60 := by
    intro ts hts
    rw [hl] at hts
    exact of_decide_eq_true (List.mem_filter.mp hts).2
  refine ⟨hfresh, rfl, ?_⟩
  rw [List.length_eq_zero, List.filter_eq_nil_iff]
  intro ts hts
  have := hfresh ts hts
  simp only [decide_eq_true_eq]
  linarith

/-!
### C10: `get_load` is total and returns 0 for never-logged resources
-/

def applyLogCalls (m : ResourceMonitor) (calls : List (String × ℚ)) : ResourceMonitor :=
  calls.foldl (fun acc c => acc.log_usage c.1 c.2) m

/-- Claim C10: `getLoad` is a total function (it returns a count for
every resourceId without raising — the defaultdict yields an empty list
for unknown keys), and after any sequence of `logUsage` calls none of
which targets `r`, `getLoad r` returns 0. -/
theorem getLoad_never_logged_zero (calls : List (String × ℚ)) (r : String)
    (h : ∀ c ∈ calls, c.1 ≠ r) :
    (applyLogCalls ResourceMonitor.init calls).get_load r = 0 := by
  have key : ∀ (calls : List (String × ℚ)) (m : ResourceMonitor),
      (∀ c ∈ calls, c.1 ≠ r) → m.usage_log r = [] →
      (applyLogCalls m calls).usage_log r = [] := by
    intro calls
    induction calls with
    | nil => intro m _ hm; exact hm
    | cons c rest ih =>
      intro m hc hm
      have hne : r ≠ c.1 := (hc c (List.mem_cons_self c rest)).symm
      have hone : (m.log_usage c.1 c.2).usage_log r = [] := by
        simp only [ResourceMonitor.log_usage, if_neg hne]
        exact hm
      exact ih (m.log_usage c.1 c.2) (fun d hd => hc d (List.mem_cons_of_mem c hd)) hone
  have hempty := key calls ResourceMonitor.init h rfl
  simp only [ResourceMonitor.get_load, hempty, List.length_nil]

/-- Witness for `getLoad_never_logged_zero` at a concrete input: one
usage of resource "DB_SHARD_1" is logged, and the load of the untouched
resource "API_GATEWAY" is 0. -/
theorem getLoad_never_logged_zero_witness :
    (∀ c ∈ [(("DB_SHARD_1" : String), (5:ℚ))], c.1 ≠ "API_GATEWAY") ∧
    (applyLogCalls ResourceMonitor.init [(("DB_SHARD_1" : String), (5:ℚ))]).get_load "API_GATEWAY" = 0 :=
  ⟨by simp, getLoad_never_logged_zero [(("DB_SHARD_1" : String), (5:ℚ))] "API_GATEWAY" (by simp)⟩

/-!
### C1: unknown tenant
-/

/-- Claim C1 counterexample: in the freshly initialised engine (no users,
only `Tenant_A` registered), `process_event` for the unregistered tenant
`Tenant_X` does fail with the `UnknownTenant` error, but the failing call
leaves a newly created UserProfile for `u1` in the user registry — the
get-or-create of the user happens before the tenant lookup that raises,
so partial state IS created. -/
theorem processEvent_unknownTenant_adds_profile :
    demoState.users "u1" = none ∧
    demoState.tenants "Tenant_X" = none ∧
    (process_event demoState "Tenant_X" "u1" "LOGIN" none "NORMAL" 0 0 0).1
      = Except.error EngineError.unknownTenant ∧
    ((process_event demoState "Tenant_X" "u1" "LOGIN" none "NORMAL" 0 0 0).2.users "u1").isSome = true := by
  refine ⟨rfl, by simp [demoState], ?_, ?_⟩ <;>
    norm_num +decide [process_event, demoState, TrialUser.init]

/-- Claim C1 (amended): for every tenantId not present in the tenant
registry, `processEvent` fails with the `UnknownTenant` error and leaves
tenants, the resource tracker and the stats untouched; however the user
get-or-create has already run when the lookup fails, so the failing call
does leave a UserProfile stored under userId (a fresh one if none
existed), while every other user entry is unchanged. -/
theorem processEvent_unknownTenant_behavior (s : EngineState)
    (tenant_id user_id event_type : String) (resource_id : Option String)
    (uts : String) (now rc rv : ℚ) (ht : s.tenants tenant_id = none) :
    (process_event s tenant_id user_id event_type resource_id uts now rc rv).1
      = Except.error EngineError.unknownTenant ∧
    ((process_event s tenant_id user_id event_type resource_id uts now rc rv).2.users user_id).isSome = true ∧
    (∀ k, k ≠ user_id →
      (process_event s tenant_id user_id event_type resource_id uts now rc rv).2.users k = s.users k) ∧
    (process_event s tenant_id user_id event_type resource_id uts now rc rv).2.tenants = s.tenants ∧
    (process_event s tenant_id user_id event_type resource_id uts now rc rv).2.resource_monitor = s.resource_monitor ∧
    (process_event s tenant_id user_id event_type resource_id uts now rc rv).2.stats = s.stats := by
  simp only [process_event, ht]
  refine ⟨trivial, ?_, ?_, trivial, trivial, trivial⟩
  · simp
  · intro k hk
    simp [hk]

/-- Witness for `processEvent_unknownTenant_behavior` at a concrete
input: the fresh engine state and the unregistered tenant `Tenant_X`. -/
theorem processEvent_unknownTenant_behavior_witness :
    demoState.tenants "Tenant_X" = none ∧
    ((process_event demoState "Tenant_X" "u7" "LOGIN" none "NORMAL" 0 0 0).1
      = Except.error EngineError.unknownTenant ∧
    ((process_event demoState "Tenant_X" "u7" "LOGIN" none "NORMAL" 0 0 0).2.users "u7").isSome = true ∧
    (∀ k, k ≠ "u7" →
      (process_event demoState "Tenant_X" "u7" "LOGIN" none "NORMAL" 0 0 0).2.users k = demoState.users k) ∧
    (process_event demoState "Tenant_X" "u7" "LOGIN" none "NORMAL" 0 0 0).2.tenants = demoState.tenants ∧
    (process_event demoState "Tenant_X" "u7" "LOGIN" none "NORMAL" 0 0 0).2.resource_monitor = demoState.resource_monitor ∧
    (process_event demoState "Tenant_X" "u7" "LOGIN" none "NORMAL" 0 0 0).2.stats = demoState.stats) :=
  ⟨by simp [demoState],
    processEvent_unknownTenant_behavior demoState "Tenant_X" "u7" "LOGIN" none "NORMAL" 0 0 0
      (by simp [demoState])⟩

/-!
### C2: determinism of process_event
-/

/-- Claim C2 counterexample: `process_event` draws its synthetic cost
from `random.uniform(0.1, 0.5)` for an API_CALL event, and that draw is
not part of the engine state, the arguments, or the clock.  Two runs
from the identical fresh engine state with identical arguments at the
identical clock time 0, whose uniform draws are 0.2 and 0.3 (both legal
values of `uniform(0.1, 0.5)`), leave different estimated costs on the
resulting user profile — so the two runs do not derive the same cost nor
produce identical resulting state. -/
theorem processEvent_random_draws_differ :
    (1/10 : ℚ) ≤ 2/10 ∧ (2/10 : ℚ) ≤ 5/10 ∧ (1/10 : ℚ) ≤ 3/10 ∧ (3/10 : ℚ) ≤ 5/10 ∧
    ((process_event demoState "Tenant_A" "u1" "API_CALL" none "NORMAL" 0 (2/10) (1/2)).2.users "u1").map
        TrialUser.estimated_cost = some (2/10) ∧
    ((process_event demoState "Tenant_A" "u1" "API_CALL" none "NORMAL" 0 (3/10) (1/2)).2.users "u1").map
        TrialUser.estimated_cost = some (3/10) ∧
    ((2:ℚ)/10) ≠ 3/10 := by
  refine ⟨by norm_num, by norm_num, by norm_num, by norm_num, ?_, ?_, by norm_num⟩ <;>
    norm_num +decide [process_event, demoState, demoTenant, demoStats, TrialUser.init,
      TrialUser.add_event, calculate_scores, make_decision, sales_or_allow, pymax, pymin,
      allSame, last5, ResourceMonitor.init, ResourceMonitor.get_load, ResourceMonitor.log_usage]

/-- Claim C2 (amended): `process_event` is deterministic once the
pseudo-random draws are included among the inputs: two runs from
identical engine state, with identical arguments, at the same clock
time, and with identical `random.uniform` draws for cost and value,
produce identical results (same decision or error, and identical
resulting engine state). -/
theorem processEvent_deterministic_given_draws (s1 s2 : EngineState)
    (tenant_id user_id event_type : String) (resource_id : Option String)
    (uts : String) (now1 rc1 rv1 now2 rc2 rv2 : ℚ)
    (hs : s1 = s2) (hn : now1 = now2) (hc : rc1 = rc2) (hv : rv1 = rv2) :
    process_event s1 tenant_id user_id event_type resource_id uts now1 rc1 rv1
      = process_event s2 tenant_id user_id event_type resource_id uts now2 rc2 rv2 := by
  subst hs hn hc hv
  rfl

/-- Witness for `processEvent_deterministic_given_draws` at a concrete
input: two syntactically separate runs with equal state, arguments,
clock and draws coincide. -/
theorem processEvent_deterministic_given_draws_witness :
    process_event demoState "Tenant_A" "u2" "LOGIN" none "NORMAL" 1 (1/10) (1/2)
      = process_event demoState "Tenant_A" "u2" "LOGIN" none "NORMAL" 1 (1/10) (1/2) :=
  processEvent_deterministic_given_draws demoState demoState "Tenant_A" "u2" "LOGIN" none
    "NORMAL" 1 (1/10) (1/2) 1 (1/10) (1/2) rfl rfl rfl rfl
